import Mathlib

/-!
Verification development for the hetty intercepting proxy: a shallow
embedding of the request-log service (`pkg/reqlog/reqlog.go`) and the
proxy engine's modifier pipeline (`pkg/proxy`), with theorems settling
the specification claims about bypass decisions, body capture, gzip
decoding, persistence and middleware ordering.

Modelling conventions:
- ULIDs are 128-bit identifiers; here they are natural numbers and the
  zero ULID is `0` (only equality with zero and equality of ids matter).
- Bodies are byte lists (`List Nat`). Reading from an in-memory buffer
  cannot fail, so body reads in the embedding are infallible; the
  repository and the gzip decoder are collaborators whose success or
  failure is a parameter.
- Go's `http.Header` (a map from canonical key to a list of values) is
  an association list; `headerGet` mirrors `Header.Get` (first value of
  the matching key, or the empty string).
- The per-exchange `context.Context` is reduced to the two reserved
  keys the code uses: `LogBypassedKey` and `ReqLogIDKey`. The response
  side receives this context through `res.Request.Context()`, modelled
  as an explicit `ReqContext` argument.
- The goroutine that persists a response log is modelled as its effect
  on the repository state when the spawned task runs to completion.
-/

namespace Hetty

/-- ULID identifiers, as natural numbers; `0` is the zero ULID `ulid.ULID{}`. -/
abbrev ULID := Nat

/-- The zero value `ulid.ULID{}`; `Compare` with it returning 0 means equality. -/
def zeroULID : ULID := 0

/-- Go `http.Header`: a map from header key to list of values. -/
abbrev Header := List (String × List String)

/-- `Header.Get`: first value for the key, or `""` when absent or empty. -/
def headerGet (h : Header) (k : String) : String :=
  match h.find? (fun p => p.1 == k) with
  | some (_, v :: _) => v
  | _ => ""

/-- Go map assignment `h[k] = v`: replace the entry if present, else add it. -/
def headerSet (h : Header) (k : String) (v : List String) : Header :=
  if h.any (fun p => p.1 == k) then
    h.map (fun p => if p.1 == k then (k, v) else p)
  else
    h ++ [(k, v)]

/-- `url.URL`, restricted to the fields the embedded code touches. -/
structure URL where
  scheme : String
  host : String
  path : String
deriving DecidableEq

/-- The per-exchange context, restricted to the two reserved keys:
`LogBypassedKey` (absent modelled as `false`) and `ReqLogIDKey`
(absent modelled as `none`). -/
structure ReqContext where
  logBypassed : Bool
  reqLogID : Option ULID
deriving DecidableEq

/-- `http.Request`, restricted to the fields the embedded code touches.
A `nil` body is `none`. -/
structure HTTPRequest where
  method : String
  url : URL
  host : String
  proto : String
  header : Header
  body : Option (List Nat)
  ctx : ReqContext
deriving DecidableEq

/-- `http.Response`, restricted to the fields the embedded code touches. -/
structure HTTPResponse where
  proto : String
  statusCode : Nat
  status : String
  header : Header
  body : List Nat
deriving DecidableEq

/-- `reqlog.RequestLog` (the persisted request record). -/
structure RequestLog where
  id : ULID
  projectID : ULID
  url : URL
  method : String
  proto : String
  header : Header
  body : List Nat
deriving DecidableEq

/-- `reqlog.ResponseLog` (the persisted response record, keyed by request id). -/
structure ResponseLog where
  proto : String
  statusCode : Nat
  status : String
  header : Header
  body : List Nat
deriving DecidableEq

/-- The repository collaborator's visible state: stored request logs and
response logs keyed by request-log id, in insertion order. -/
structure RepoState where
  requestLogs : List RequestLog
  responseLogs : List (ULID × ResponseLog)
deriving DecidableEq

/-- The `reqlog.service` state fields the modifiers read. -/
structure ServiceState where
  bypassOutOfScopeRequests : Bool
  activeProjectID : ULID
  repo : RepoState
deriving DecidableEq

/-- `reqlog.ParseHTTPResponse`: when the `Content-Encoding` header equals
`gzip`, decode the body through the gzip decoder (a collaborator,
passed as `gunzip`; creation and copy errors are collapsed into its
`Except` result) and read the decoded bytes; otherwise read the body
as-is. The returned log carries `res.Header` unchanged. -/
def ParseHTTPResponse (gunzip : List Nat → Except String (List Nat))
    (res : HTTPResponse) : Except String ResponseLog :=
  if headerGet res.header "Content-Encoding" == "gzip" then
    match gunzip res.body with
    | .error e => .error ("reqlog: could not read gzipped response body: " ++ e)
    | .ok decoded =>
        .ok { proto := res.proto, statusCode := res.statusCode, status := res.status,
              header := res.header, body := decoded }
  else
    .ok { proto := res.proto, statusCode := res.statusCode, status := res.status,
          header := res.header, body := res.body }

/-- Result of one run of the request modifier: the (possibly
context-mutated) live request and the service state afterwards. -/
structure ReqModResult where
  req : HTTPRequest
  svc : ServiceState
deriving DecidableEq

/-- `service.RequestModifier`'s returned closure. `next` runs first; then the
request is cloned and its body drained and restored (infallible here, since
bodies are in-memory byte lists). If no project is active, or bypassing is on
and the scope rejects the clone, `LOG_BYPASSED=true` is set on the context
and nothing is stored. Otherwise a `RequestLog` is built from the clone with
a fresh id (`newID`, standing for the minted ULID) and the active project id,
and handed to `StoreRequestLog` (its success decided by the collaborator
parameter `storeOk`): on success the log is appended and `REQ_LOG_ID` set on
the context; on failure the error is logged and the closure just returns. -/
def RequestModifier
    (scopeMatch : HTTPRequest → List Nat → Bool)
    (storeOk : RequestLog → Bool)
    (newID : ULID)
    (svc : ServiceState)
    (next : HTTPRequest → HTTPRequest)
    (req0 : HTTPRequest) : ReqModResult :=
  let req := next req0
  let clone := req
  let body := req.body.getD []
  if svc.activeProjectID = zeroULID then
    { req := { req with ctx := { req.ctx with logBypassed := true } }, svc := svc }
  else if svc.bypassOutOfScopeRequests && !(scopeMatch clone body) then
    { req := { req with ctx := { req.ctx with logBypassed := true } }, svc := svc }
  else
    let reqLog : RequestLog :=
      { id := newID, projectID := svc.activeProjectID, method := clone.method,
        url := clone.url, proto := clone.proto, header := clone.header, body := body }
    if storeOk reqLog then
      { req := { req with ctx := { req.ctx with reqLogID := some reqLog.id } },
        svc := { svc with
          repo := { svc.repo with requestLogs := svc.repo.requestLogs ++ [reqLog] } } }
    else
      { req := req, svc := svc }

/-- `service.storeResponse`, as run by the spawned goroutine: parse the
cloned response (gzip-aware) and hand the log to `StoreResponseLog`
(success decided by `storeResOk`); a parse or store failure only logs. -/
def storeResponse (gunzip : List Nat → Except String (List Nat))
    (storeResOk : Bool) (repo : RepoState) (reqLogID : ULID)
    (res : HTTPResponse) : RepoState :=
  match ParseHTTPResponse gunzip res with
  | .error _ => repo
  | .ok resLog =>
      if storeResOk then
        { repo with responseLogs := repo.responseLogs ++ [(reqLogID, resLog)] }
      else repo

/-- Result of one run of the response modifier: the live response handed
onward, the error returned to the chain, and the repository after the
spawned persistence task (if any) has run. -/
structure ResModResult where
  res : HTTPResponse
  err : Option String
  repo : RepoState
deriving DecidableEq

/-- `service.ResponseModifier`'s returned closure. `next` runs first (it may
mutate the response and may fail); its error is returned unchanged. If the
exchange's context carries `LOG_BYPASSED`, return nil at once. If
`REQ_LOG_ID` is absent, return the error `reqlog: request is missing ID`.
Otherwise the body is drained and restored on both the live response and a
clone (infallible here), and a detached task persists the clone. -/
def ResponseModifier (gunzip : List Nat → Except String (List Nat))
    (storeResOk : Bool) (reqCtx : ReqContext) (repo : RepoState)
    (next : HTTPResponse → HTTPResponse × Option String)
    (res0 : HTTPResponse) : ResModResult :=
  let p := next res0
  match p.2 with
  | some e => { res := p.1, err := some e, repo := repo }
  | none =>
    if reqCtx.logBypassed then
      { res := p.1, err := none, repo := repo }
    else
      match reqCtx.reqLogID with
      | none => { res := p.1, err := some "reqlog: request is missing ID", repo := repo }
      | some reqLogID =>
          { res := p.1, err := none,
            repo := storeResponse gunzip storeResOk repo reqLogID p.1 }

/-- `proxy.RequestModifyFunc`, generic in the request representation. -/
abbrev RequestModifyFunc (α : Type) := α → α

/-- `proxy.RequestModifyMiddleware`. -/
abbrev RequestModifyMiddleware (α : Type) := RequestModifyFunc α → RequestModifyFunc α

/-- `proxy.nopReqModifier`: the no-op leaf of the request chain. -/
def nopReqModifier (α : Type) : RequestModifyFunc α := fun r => r

/-- `proxy.ResponseModifyFunc`: may mutate the value and return an error. -/
abbrev ResponseModifyFunc (α : Type) := α → α × Option String

/-- `proxy.ResponseModifyMiddleware`. -/
abbrev ResponseModifyMiddleware (α : Type) := ResponseModifyFunc α → ResponseModifyFunc α

/-- `proxy.nopResModifier`: the no-op leaf of the response chain (nil error). -/
def nopResModifier (α : Type) : ResponseModifyFunc α := fun r => (r, none)

/-- The composition loop of `Proxy.modifyRequest`:
`fn := nop; for i := len-1 downto 0: fn = mods[i](fn)`, so the first
registered middleware is outermost. -/
def composeReqModifiers {α : Type} (mods : List (RequestModifyMiddleware α)) :
    RequestModifyFunc α :=
  mods.foldr (fun m fn => m fn) (nopReqModifier α)

/-- The composition loop of `Proxy.modifyResponse`, same shape. -/
def composeResModifiers {α : Type} (mods : List (ResponseModifyMiddleware α)) :
    ResponseModifyFunc α :=
  mods.foldr (fun m fn => m fn) (nopResModifier α)

/-- The request fixup at the top of `Proxy.modifyRequest`: a request whose
URL has no scheme (the inner request after a CONNECT tunnel) gets
`URL.Host = r.Host` and `URL.Scheme = "https"`; any other request is
left alone. -/
def fixAfterConnect (r : HTTPRequest) : HTTPRequest :=
  if r.url.scheme = "" then
    { r with url := { r.url with host := r.host, scheme := "https" } }
  else r

/-- The request as `Proxy.modifyRequest` hands it to the composed chain:
URL fixed up after CONNECT, then `X-Forwarded-For` set to the empty value
so the reverse proxy does not add one. -/
def enginePrepared (r : HTTPRequest) : HTTPRequest :=
  let r1 := fixAfterConnect r
  { r1 with header := headerSet r1.header "X-Forwarded-For" [] }

/-- `Proxy.modifyRequest`: fix the URL, clear `X-Forwarded-For`, compose the
registered middlewares (first registered outermost) and run the chain. -/
def modifyRequest (mods : List (RequestModifyMiddleware HTTPRequest))
    (r : HTTPRequest) : HTTPRequest :=
  composeReqModifiers mods (enginePrepared r)

/-- `Proxy.errorHandler`: a cancellation is dropped silently; any other
error from the reverse proxy (including a response-modifier error) is
logged and rendered as status 502. -/
def errorHandlerStatus (canceled : Bool) : Option Nat :=
  if canceled then none else some 502

/-- Events observable while a middleware chain runs: middleware `i`
starting its work on the way in, or running its after-next code on the
way out. Used to state the pipeline-ordering guarantee. -/
inductive MWEvent
  | enter (i : Nat)
  | leave (i : Nat)
deriving DecidableEq

/-- A trace of middleware events, grown as the chain runs. -/
abbrev Trace := List MWEvent

/-- The generic instrumented request middleware numbered `i`: record
`enter i`, call `next`, record `leave i`. -/
def traceWrap (i : Nat) : RequestModifyMiddleware Trace :=
  fun next t => next (t ++ [MWEvent.enter i]) ++ [MWEvent.leave i]

/-- The generic instrumented response middleware numbered `i`, same shape
over the error-returning signature. -/
def traceWrapRes (i : Nat) : ResponseModifyMiddleware Trace :=
  fun next t =>
    let p := next (t ++ [MWEvent.enter i])
    (p.1 ++ [MWEvent.leave i], p.2)

theorem composeReq_trace (l : List Nat) (t : Trace) :
    composeReqModifiers (l.map traceWrap) t
      = t ++ l.map MWEvent.enter ++ (l.reverse.map MWEvent.leave) := by
  induction l generalizing t with
  | nil => simp [composeReqModifiers, nopReqModifier]
  | cons i l ih =>
      simp only [List.map_cons, composeReqModifiers, List.foldr_cons, traceWrap]
      rw [show (List.foldr (fun m fn => m fn) (nopReqModifier Trace) (l.map traceWrap))
            = composeReqModifiers (l.map traceWrap) from rfl]
      rw [ih]
      simp [List.append_assoc]

theorem composeRes_trace (l : List Nat) (t : Trace) :
    composeResModifiers (l.map traceWrapRes) t
      = (t ++ l.map MWEvent.enter ++ (l.reverse.map MWEvent.leave), none) := by
  induction l generalizing t with
  | nil => simp [composeResModifiers, nopResModifier]
  | cons i l ih =>
      simp only [List.map_cons, composeResModifiers, List.foldr_cons, traceWrapRes]
      rw [show (List.foldr (fun m fn => m fn) (nopResModifier Trace) (l.map traceWrapRes))
            = composeResModifiers (l.map traceWrapRes) from rfl]
      rw [ih]
      simp [List.append_assoc]

/-! Concrete values used to evaluate the embedding on specific inputs. -/

/-- An empty repository. -/
def repo0 : RepoState := { requestLogs := [], responseLogs := [] }

/-- A concrete stand-in for the gzip decoder collaborator: decodes any
input to the bytes of `world`. -/
def gz0 : List Nat → Except String (List Nat) :=
  fun _ => .ok [119, 111, 114, 108, 100]

/-- A concrete gzipped response: `Content-Encoding: gzip`, wire body the
first gzip magic bytes. -/
def resGz : HTTPResponse :=
  { proto := "HTTP/1.1", statusCode := 200, status := "200 OK",
    header := [("Content-Encoding", ["gzip"])], body := [31, 139, 8, 0] }

/-- A concrete plain response with body `hello`. -/
def resPlain : HTTPResponse :=
  { proto := "HTTP/1.1", statusCode := 200, status := "200 OK",
    header := [], body := [104, 101, 108, 108, 111] }

/-- A concrete plain request with body `hi`. -/
def reqEx : HTTPRequest :=
  { method := "GET", url := { scheme := "http", host := "upstream.test", path := "/a" },
    host := "upstream.test", proto := "HTTP/1.1", header := [],
    body := some [104, 105], ctx := { logBypassed := false, reqLogID := none } }

/-- A concrete inner request after a CONNECT tunnel: relative URL (empty
scheme), tunnel target in `host`. -/
def reqTunnel : HTTPRequest :=
  { method := "GET", url := { scheme := "", host := "", path := "/x" },
    host := "secure.test", proto := "HTTP/1.1", header := [], body := none,
    ctx := { logBypassed := false, reqLogID := none } }

/-- Service state with project 1 active and out-of-scope bypassing off. -/
def svcEx : ServiceState :=
  { bypassOutOfScopeRequests := false, activeProjectID := 1, repo := repo0 }

/-- Service state with no active project. -/
def svcZero : ServiceState :=
  { bypassOutOfScopeRequests := false, activeProjectID := 0, repo := repo0 }

/-- Service state with project 1 active and out-of-scope bypassing on. -/
def svcBypass : ServiceState :=
  { bypassOutOfScopeRequests := true, activeProjectID := 1, repo := repo0 }

/-- A scope that matches everything. -/
def scopeAll : HTTPRequest → List Nat → Bool := fun _ _ => true

/-- A scope that matches nothing. -/
def scopeNone : HTTPRequest → List Nat → Bool := fun _ _ => false

/-- A repository whose `StoreRequestLog` always succeeds. -/
def storeAll : RequestLog → Bool := fun _ => true

/-- A repository whose `StoreRequestLog` always fails. -/
def storeFail : RequestLog → Bool := fun _ => false

/-- The request log the modifier builds from `reqEx` under `svcEx` with id 42. -/
def logEx : RequestLog :=
  { id := 42, projectID := 1,
    url := { scheme := "http", host := "upstream.test", path := "/a" },
    method := "GET", proto := "HTTP/1.1", header := [], body := [104, 105] }

/-- A logged exchange context: not bypassed, request-log id 7. -/
def ctxLogged : ReqContext := { logBypassed := false, reqLogID := some 7 }

/-- A bypassed exchange context. -/
def ctxBypassed : ReqContext := { logBypassed := true, reqLogID := none }

/-! Helper lemmas shared by several claim proofs. -/

theorem responseModifier_bypassed_repo (gunzip : List Nat → Except String (List Nat))
    (storeResOk : Bool) (reqCtx : ReqContext) (repo : RepoState)
    (nxt : HTTPResponse → HTTPResponse × Option String) (res : HTTPResponse)
    (h : reqCtx.logBypassed = true) :
    (ResponseModifier gunzip storeResOk reqCtx repo nxt res).repo = repo := by
  simp only [ResponseModifier]
  cases hp : (nxt res).2 with
  | none => simp [hp, h]
  | some e => simp [hp]

/-! Claim theorems. -/

/-- Claim C9: when the inner chain `next` returns an error, the logger's
response modifier returns that same error unchanged, hands on the response
exactly as the inner chain left it, performs no body read or replacement,
and spawns no persistence task: the repository is unchanged. -/
theorem c9_inner_error_propagates_unchanged
    (gunzip : List Nat → Except String (List Nat)) (storeResOk : Bool)
    (reqCtx : ReqContext) (repo : RepoState)
    (nxt : HTTPResponse → HTTPResponse × Option String)
    (res res1 : HTTPResponse) (e : String)
    (hn : nxt res = (res1, some e)) :
    ResponseModifier gunzip storeResOk reqCtx repo nxt res
      = { res := res1, err := some e, repo := repo } := by
  simp [ResponseModifier, hn]

/-- Witness for C9 at a concrete failing inner chain. -/
theorem c9_witness :
    ResponseModifier gz0 true ctxLogged repo0 (fun r => (r, some "boom")) resPlain
      = { res := resPlain, err := some "boom", repo := repo0 } :=
  c9_inner_error_propagates_unchanged gz0 true ctxLogged repo0
    (fun r => (r, some "boom")) resPlain resPlain "boom" rfl

/-- Claim C10: when the exchange's context carries `LOG_BYPASSED=true` and
the inner chain succeeds, the response modifier returns success without
touching the response (it is exactly the inner chain's output) and without
persisting anything. -/
theorem c10_bypassed_response_untouched
    (gunzip : List Nat → Except String (List Nat)) (storeResOk : Bool)
    (reqCtx : ReqContext) (repo : RepoState)
    (nxt : HTTPResponse → HTTPResponse × Option String)
    (res res1 : HTTPResponse)
    (hn : nxt res = (res1, none))
    (hb : reqCtx.logBypassed = true) :
    ResponseModifier gunzip storeResOk reqCtx repo nxt res
      = { res := res1, err := none, repo := repo } := by
  simp [ResponseModifier, hn, hb]

/-- Witness for C10 at a concrete bypassed exchange. -/
theorem c10_witness :
    ResponseModifier gz0 true ctxBypassed repo0 (fun r => (r, none)) resPlain
      = { res := resPlain, err := none, repo := repo0 } :=
  c10_bypassed_response_untouched gz0 true ctxBypassed repo0
    (fun r => (r, none)) resPlain resPlain rfl rfl

/-- Claim C4: while `activeProjectID` is the zero ULID, the request modifier
sets `LOG_BYPASSED=true` on the context and returns without storing (the
service state, hence the repository, is unchanged), and the response side of
such an exchange leaves the repository untouched: no record is left. -/
theorem c4_zero_project_bypasses_logging
    (scopeMatch : HTTPRequest → List Nat → Bool) (storeOk : RequestLog → Bool)
    (newID : ULID) (svc : ServiceState) (next : HTTPRequest → HTTPRequest)
    (req : HTTPRequest) (h : svc.activeProjectID = zeroULID) :
    (RequestModifier scopeMatch storeOk newID svc next req).req.ctx.logBypassed = true
    ∧ (RequestModifier scopeMatch storeOk newID svc next req).svc = svc
    ∧ ∀ (gunzip : List Nat → Except String (List Nat)) (storeResOk : Bool)
        (repo : RepoState) (nxt : HTTPResponse → HTTPResponse × Option String)
        (res : HTTPResponse),
        (ResponseModifier gunzip storeResOk
            (RequestModifier scopeMatch storeOk newID svc next req).req.ctx
            repo nxt res).repo = repo := by
  refine ⟨by simp [RequestModifier, h], by simp [RequestModifier, h], ?_⟩
  intro gunzip storeResOk repo nxt res
  exact responseModifier_bypassed_repo gunzip storeResOk _ repo nxt res
    (by simp [RequestModifier, h])

/-- Witness for C4 at a concrete request under a zero active project. -/
theorem c4_witness :
    (RequestModifier scopeAll storeAll 42 svcZero (fun r => r) reqEx).req.ctx.logBypassed = true
    ∧ (RequestModifier scopeAll storeAll 42 svcZero (fun r => r) reqEx).svc = svcZero
    ∧ (ResponseModifier gz0 true
        (RequestModifier scopeAll storeAll 42 svcZero (fun r => r) reqEx).req.ctx
        repo0 (fun r => (r, none)) resPlain).repo = repo0 :=
  ⟨(c4_zero_project_bypasses_logging scopeAll storeAll 42 svcZero (fun r => r) reqEx rfl).1,
   (c4_zero_project_bypasses_logging scopeAll storeAll 42 svcZero (fun r => r) reqEx rfl).2.1,
   (c4_zero_project_bypasses_logging scopeAll storeAll 42 svcZero (fun r => r) reqEx rfl).2.2
     gz0 true repo0 (fun r => (r, none)) resPlain⟩

/-- Claim C5: while `bypassOutOfScopeRequests` is true and the scope rejects
the cloned request with its drained body, the request modifier sets
`LOG_BYPASSED=true` and stores nothing, and the response modifier of that
exchange leaves the repository untouched: the exchange leaves no RequestLog
and no ResponseLog. -/
theorem c5_out_of_scope_bypass_no_records
    (scopeMatch : HTTPRequest → List Nat → Bool) (storeOk : RequestLog → Bool)
    (newID : ULID) (svc : ServiceState) (next : HTTPRequest → HTTPRequest)
    (req : HTTPRequest)
    (hb : svc.bypassOutOfScopeRequests = true)
    (hm : scopeMatch (next req) ((next req).body.getD []) = false) :
    (RequestModifier scopeMatch storeOk newID svc next req).req.ctx.logBypassed = true
    ∧ (RequestModifier scopeMatch storeOk newID svc next req).svc = svc
    ∧ ∀ (gunzip : List Nat → Except String (List Nat)) (storeResOk : Bool)
        (repo : RepoState) (nxt : HTTPResponse → HTTPResponse × Option String)
        (res : HTTPResponse),
        (ResponseModifier gunzip storeResOk
            (RequestModifier scopeMatch storeOk newID svc next req).req.ctx
            repo nxt res).repo = repo := by
  by_cases h0 : svc.activeProjectID = zeroULID
  · refine ⟨by simp [RequestModifier, h0], by simp [RequestModifier, h0], ?_⟩
    intro gunzip storeResOk repo nxt res
    exact responseModifier_bypassed_repo gunzip storeResOk _ repo nxt res
      (by simp [RequestModifier, h0])
  · refine ⟨by simp [RequestModifier, h0, hb, hm], by simp [RequestModifier, h0, hb, hm], ?_⟩
    intro gunzip storeResOk repo nxt res
    exact responseModifier_bypassed_repo gunzip storeResOk _ repo nxt res
      (by simp [RequestModifier, h0, hb, hm])

/-- Witness for C5 at a concrete out-of-scope request. -/
theorem c5_witness :
    (RequestModifier scopeNone storeAll 42 svcBypass (fun r => r) reqEx).req.ctx.logBypassed = true
    ∧ (RequestModifier scopeNone storeAll 42 svcBypass (fun r => r) reqEx).svc = svcBypass
    ∧ (ResponseModifier gz0 true
        (RequestModifier scopeNone storeAll 42 svcBypass (fun r => r) reqEx).req.ctx
        repo0 (fun r => (r, none)) resPlain).repo = repo0 :=
  ⟨(c5_out_of_scope_bypass_no_records scopeNone storeAll 42 svcBypass (fun r => r) reqEx rfl rfl).1,
   (c5_out_of_scope_bypass_no_records scopeNone storeAll 42 svcBypass (fun r => r) reqEx rfl rfl).2.1,
   (c5_out_of_scope_bypass_no_records scopeNone storeAll 42 svcBypass (fun r => r) reqEx rfl rfl).2.2
     gz0 true repo0 (fun r => (r, none)) resPlain⟩

/-- Claim C6: every request log present in the repository after a run of the
request modifier was either already there, or is the newly stored log, whose
`ProjectID` equals the active project id at the time of insertion and is
non-zero (the store call is only reachable past the zero-project check). -/
theorem c6_stored_log_projectid_nonzero
    (scopeMatch : HTTPRequest → List Nat → Bool) (storeOk : RequestLog → Bool)
    (newID : ULID) (svc : ServiceState) (next : HTTPRequest → HTTPRequest)
    (req : HTTPRequest) (log : RequestLog)
    (h : log ∈ (RequestModifier scopeMatch storeOk newID svc next req).svc.repo.requestLogs) :
    log ∈ svc.repo.requestLogs
    ∨ (log.projectID = svc.activeProjectID ∧ log.projectID ≠ zeroULID) := by
  by_cases h0 : svc.activeProjectID = zeroULID
  · simp only [RequestModifier, h0, if_pos rfl] at h
    simp [h0] at h
    exact Or.inl h
  · by_cases h1 : (svc.bypassOutOfScopeRequests
        && !(scopeMatch (next req) ((next req).body.getD []))) = true
    · simp [RequestModifier, h0, h1] at h
      exact Or.inl h
    · by_cases h2 : storeOk
        { id := newID, projectID := svc.activeProjectID, method := (next req).method,
          url := (next req).url, proto := (next req).proto,
          header := (next req).header, body := (next req).body.getD [] } = true
      · simp [RequestModifier, h0, h1, h2] at h
        rcases h with h | h
        · exact Or.inl h
        · subst h
          exact Or.inr ⟨rfl, h0⟩
      · simp [RequestModifier, h0, h1, h2] at h
        exact Or.inl h

/-- Witness for C6: the log stored for `reqEx` under `svcEx` has the active
project id 1, which is non-zero. -/
theorem c6_witness :
    logEx ∈ svcEx.repo.requestLogs
    ∨ (logEx.projectID = svcEx.activeProjectID ∧ logEx.projectID ≠ zeroULID) :=
  c6_stored_log_projectid_nonzero scopeAll storeAll 42 svcEx (fun r => r) reqEx logEx
    (by decide)

/-- Claim C7: the composed pipeline built by the engine runs the registered
middlewares in registration order on the way in and their after-next code in
reverse registration order on the way out, terminating in a no-op leaf; the
same holds for the response chain, whose leaf returns no error. -/
theorem c7_middleware_registration_order (l : List Nat) :
    composeReqModifiers (l.map traceWrap) []
        = l.map MWEvent.enter ++ l.reverse.map MWEvent.leave
    ∧ composeResModifiers (l.map traceWrapRes) []
        = (l.map MWEvent.enter ++ l.reverse.map MWEvent.leave, none) := by
  constructor
  · simpa using composeReq_trace l []
  · simpa using composeRes_trace l []

/-- Claim C8: the request the engine hands to the middleware chain is the
incoming request with its URL fixed up — an empty scheme (the inner request
after a CONNECT tunnel) becomes scheme `https` with the URL host set to the
request's `Host`; a non-empty scheme leaves the URL unchanged. -/
theorem c8_connect_url_fixup
    (mods : List (RequestModifyMiddleware HTTPRequest)) (r : HTTPRequest) :
    modifyRequest mods r = composeReqModifiers mods (enginePrepared r)
    ∧ (r.url.scheme = "" →
        (enginePrepared r).url.scheme = "https" ∧ (enginePrepared r).url.host = r.host)
    ∧ (r.url.scheme ≠ "" → (enginePrepared r).url = r.url) := by
  refine ⟨rfl, ?_, ?_⟩
  · intro h
    simp [enginePrepared, fixAfterConnect, h]
  · intro h
    simp [enginePrepared, fixAfterConnect, h]

/-- Witness for C8 at a concrete tunneled request (empty scheme) and a
concrete absolute request (scheme `http`). -/
theorem c8_witness :
    ((enginePrepared reqTunnel).url.scheme = "https"
      ∧ (enginePrepared reqTunnel).url.host = reqTunnel.host)
    ∧ (enginePrepared reqEx).url = reqEx.url :=
  ⟨(c8_connect_url_fixup [] reqTunnel).2.1 rfl,
   (c8_connect_url_fixup [] reqEx).2.2 (by decide)⟩

/-- Claim C1 (code bug, at a concrete failing input): when `StoreRequestLog`
fails for a loggable request, the request modifier swallows the error and
returns with neither `LOG_BYPASSED` nor `REQ_LOG_ID` on the context and the
request still flows upstream; but the response modifier of that exchange
then takes the missing-id branch and returns the error
`reqlog: request is missing ID`, which the proxy's error handler renders as
status 502 — contradicting the claim that no 5xx results from a persistence
failure. -/
theorem c1_store_failure_renders_502 :
    (RequestModifier scopeAll storeFail 42 svcEx (fun r => r) reqEx).req.ctx
        = { logBypassed := false, reqLogID := none }
    ∧ (RequestModifier scopeAll storeFail 42 svcEx (fun r => r) reqEx).svc = svcEx
    ∧ (ResponseModifier gz0 true
          (RequestModifier scopeAll storeFail 42 svcEx (fun r => r) reqEx).req.ctx
          repo0 (fun r => (r, none)) resPlain).err
        = some "reqlog: request is missing ID"
    ∧ errorHandlerStatus false = some 502 :=
  ⟨rfl, rfl, rfl, rfl⟩

/-- Claim C2 counterexample: for a concrete gzipped response on a logged
exchange, the persisted ResponseLog body is the decoded bytes (`world`), but
the body handed back toward the client is the wire (still gzip-encoded)
body, which differs from the decoded bytes — refuting the claim that the
client-bound body equals the decoded bytes. -/
theorem c2_counterexample :
    (ResponseModifier gz0 true ctxLogged repo0 (fun r => (r, none)) resGz).repo.responseLogs
      = [(7, { proto := "HTTP/1.1", statusCode := 200, status := "200 OK",
               header := [("Content-Encoding", ["gzip"])],
               body := [119, 111, 114, 108, 100] })]
    ∧ (ResponseModifier gz0 true ctxLogged repo0 (fun r => (r, none)) resGz).res.body
      = [31, 139, 8, 0]
    ∧ ([31, 139, 8, 0] : List Nat) ≠ [119, 111, 114, 108, 100] :=
  ⟨rfl, rfl, by decide⟩

/-- Claim C2 (amended): for every gzipped response on a logged exchange
whose store succeeds, the persisted ResponseLog body equals the gzip-decoded
bytes, while the response handed back toward the client is exactly the inner
chain's output with its body unchanged — still the wire (gzip-encoded)
bytes; the engine neither decodes nor re-encodes the client-bound copy. -/
theorem c2_gzip_persisted_decoded_client_wire
    (gunzip : List Nat → Except String (List Nat)) (reqCtx : ReqContext)
    (repo : RepoState) (nxt : HTTPResponse → HTTPResponse × Option String)
    (res res1 : HTTPResponse) (rid : ULID) (decoded : List Nat)
    (hn : nxt res = (res1, none))
    (hb : reqCtx.logBypassed = false)
    (hid : reqCtx.reqLogID = some rid)
    (hgz : headerGet res1.header "Content-Encoding" = "gzip")
    (hdec : gunzip res1.body = .ok decoded) :
    ResponseModifier gunzip true reqCtx repo nxt res
      = { res := res1, err := none,
          repo := { repo with responseLogs := repo.responseLogs
              ++ [(rid, { proto := res1.proto, statusCode := res1.statusCode,
                          status := res1.status, header := res1.header,
                          body := decoded })] } } := by
  simp [ResponseModifier, hn, hb, hid, storeResponse, ParseHTTPResponse, hgz, hdec]

/-- Witness for the amended C2 at the concrete gzipped response. -/
theorem c2_witness :
    ResponseModifier gz0 true ctxLogged repo0 (fun r => (r, none)) resGz
      = { res := resGz, err := none,
          repo := { repo0 with responseLogs := repo0.responseLogs
              ++ [(7, { proto := resGz.proto, statusCode := resGz.statusCode,
                        status := resGz.status, header := resGz.header,
                        body := [119, 111, 114, 108, 100] })] } } :=
  c2_gzip_persisted_decoded_client_wire gz0 ctxLogged repo0 (fun r => (r, none))
    resGz resGz 7 [119, 111, 114, 108, 100] rfl rfl rfl rfl rfl

/-- Claim C3 counterexample: for a concrete response with
`Content-Encoding: gzip`, `ParseHTTPResponse` returns the decoded body but
its header map still contains the `Content-Encoding: gzip` entry — refuting
the claim that the entry is stripped. -/
theorem c3_counterexample :
    ParseHTTPResponse gz0 resGz
      = .ok { proto := "HTTP/1.1", statusCode := 200, status := "200 OK",
              header := [("Content-Encoding", ["gzip"])],
              body := [119, 111, 114, 108, 100] }
    ∧ headerGet [("Content-Encoding", ["gzip"])] "Content-Encoding" = "gzip" :=
  ⟨rfl, rfl⟩

/-- Claim C3 (amended): when the `Content-Encoding` header equals `gzip` and
the decoder succeeds, `ParseHTTPResponse` returns a ResponseLog whose body
is the gzip-decoded bytes and whose header map is the response's header map
unchanged (the `Content-Encoding: gzip` entry is kept, not stripped); for
any other response the body is read as-is. -/
theorem c3_parse_decodes_body_keeps_header
    (gunzip : List Nat → Except String (List Nat)) (res : HTTPResponse)
    (decoded : List Nat) :
    (headerGet res.header "Content-Encoding" = "gzip" →
      gunzip res.body = .ok decoded →
      ParseHTTPResponse gunzip res
        = .ok { proto := res.proto, statusCode := res.statusCode, status := res.status,
                header := res.header, body := decoded })
    ∧ (headerGet res.header "Content-Encoding" ≠ "gzip" →
      ParseHTTPResponse gunzip res
        = .ok { proto := res.proto, statusCode := res.statusCode, status := res.status,
                header := res.header, body := res.body }) := by
  constructor
  · intro hgz hdec
    simp [ParseHTTPResponse, hgz, hdec]
  · intro hgz
    simp [ParseHTTPResponse, beq_iff_eq, hgz]

/-- Witness for the amended C3 at the concrete gzipped and plain responses. -/
theorem c3_witness :
    ParseHTTPResponse gz0 resGz
      = .ok { proto := resGz.proto, statusCode := resGz.statusCode,
              status := resGz.status, header := resGz.header,
              body := [119, 111, 114, 108, 100] }
    ∧ ParseHTTPResponse gz0 resPlain
      = .ok { proto := resPlain.proto, statusCode := resPlain.statusCode,
              status := resPlain.status, header := resPlain.header,
              body := resPlain.body } :=
  ⟨(c3_parse_decodes_body_keeps_header gz0 resGz [119, 111, 114, 108, 100]).1 rfl rfl,
   (c3_parse_decodes_body_keeps_header gz0 resPlain []).2 (by decide)⟩

end Hetty
